import Mathlib

/-!
Shallow embedding of `user.go` from the go-jira repository: the `User`
data model with its Go `encoding/json` marshalling semantics (struct tags
`json:"...,omitempty"` and `json:"-"`), the user-search functional options,
and the seven `UserService` operations modelled as explicit request/response
state passing.  External collaborators that are not part of `user.go`
(the generic client's `NewRequestWithContext`/`Do`, `NewJiraError`,
`encoding/json`, `ioutil.ReadAll`) are modelled from the specification's
description of them.
-/

namespace GoJira

/-- A JSON value, as produced/consumed by Go `encoding/json`.  Objects keep
their fields as an ordered association list, mirroring the order Go emits. -/
inductive Json where
  | null
  | bool (b : Bool)
  | num (n : Int)
  | str (s : String)
  | arr (elems : List Json)
  | obj (fields : List (String × Json))

/-- Modelled from the spec: `AvatarUrls` (defined outside `user.go`) is the
"avatar URL set (small/medium/large/xlarge variants, each optional URL
string)", each field carrying an `omitempty` JSON tag. -/
structure AvatarUrls where
  Small : String := ""
  Medium : String := ""
  Large : String := ""
  XLarge : String := ""
  deriving DecidableEq

/-- `User` from `user.go` lines 18-34.  Field order and JSON tags follow the
source; `Password` is tagged `json:"-"` (never serialized, never decoded). -/
structure User where
  Self : String := ""
  AccountID : String := ""
  AccountType : String := ""
  Name : String := ""
  Key : String := ""
  Password : String := ""
  EmailAddress : String := ""
  AvatarUrls : AvatarUrls := {}
  DisplayName : String := ""
  Active : Bool := false
  TimeZone : String := ""
  Locale : String := ""
  ApplicationKeys : List String := []
  deriving DecidableEq

/-- `UserGroup` from `user.go` lines 37-40. -/
structure UserGroup where
  Self : String := ""
  Name : String := ""
  deriving DecidableEq

/-- Go `omitempty` marshalling of a string field: the key is emitted iff the
value is not the empty string. -/
def omitStr (k : String) (v : String) : List (String × Json) :=
  if v = "" then [] else [(k, Json.str v)]

/-- Marshalling of the `AvatarUrls` struct: four `omitempty` string fields. -/
def marshalAvatarUrls (a : AvatarUrls) : List (String × Json) :=
  omitStr "small" a.Small ++ omitStr "medium" a.Medium ++
  omitStr "large" a.Large ++ omitStr "xlarge" a.XLarge

/-- Go `encoding/json` marshalling of `User`, field by field in struct order.
`Password` has tag `json:"-"` and is skipped entirely.  `omitempty` omits a
string iff empty, a bool iff false and a slice iff empty; it has no effect on
the struct-valued `AvatarUrls` field, which Go always emits. -/
def marshalUser (u : User) : List (String × Json) :=
  omitStr "self" u.Self ++
  omitStr "accountId" u.AccountID ++
  omitStr "accountType" u.AccountType ++
  omitStr "name" u.Name ++
  omitStr "key" u.Key ++
  omitStr "emailAddress" u.EmailAddress ++
  [("avatarUrls", Json.obj (marshalAvatarUrls u.AvatarUrls))] ++
  omitStr "displayName" u.DisplayName ++
  (if u.Active then [("active", Json.bool true)] else []) ++
  omitStr "timeZone" u.TimeZone ++
  omitStr "locale" u.Locale ++
  (if u.ApplicationKeys.isEmpty then []
   else [("applicationKeys", Json.arr (u.ApplicationKeys.map Json.str))])

/-- Decoding one JSON value into a Go `string` field: a JSON string sets the
field, JSON `null` leaves it unchanged, anything else is a type error. -/
def decStr (j : Json) (old : String) : Option String :=
  match j with
  | Json.str s => some s
  | Json.null => some old
  | _ => none

/-- Decoding a JSON value into a `[]string` field: an array of strings, or
`null` (which Go sets to the nil slice). -/
def decStrList (j : Json) : Option (List String) :=
  match j with
  | Json.arr es => es.mapM (fun e => match e with | Json.str s => some s | _ => none)
  | Json.null => some []
  | _ => none

/-- One step of Go unmarshalling into `AvatarUrls`: assign a single JSON
object member to the matching field, ignore unknown keys. -/
def setAvatarField (a : AvatarUrls) (kv : String × Json) : Option AvatarUrls :=
  if kv.1 = "small" then (decStr kv.2 a.Small).map (fun s => {a with Small := s})
  else if kv.1 = "medium" then (decStr kv.2 a.Medium).map (fun s => {a with Medium := s})
  else if kv.1 = "large" then (decStr kv.2 a.Large).map (fun s => {a with Large := s})
  else if kv.1 = "xlarge" then (decStr kv.2 a.XLarge).map (fun s => {a with XLarge := s})
  else some a

/-- Go unmarshalling of a JSON value into an `AvatarUrls` struct, starting
from the field's current value (Go decodes nested structs in place). -/
def decodeAvatarUrls (init : AvatarUrls) (j : Json) : Option AvatarUrls :=
  match j with
  | Json.obj fs => fs.foldlM setAvatarField init
  | Json.null => some init
  | _ => none

/-- One step of Go unmarshalling into `User`: assign a single JSON object
member to the matching struct field.  `Password` has tag `json:"-"`, so no
JSON key (in particular not `"password"`) is ever assigned to it; unknown
keys are ignored, a type mismatch is an error. -/
def setField (u : User) (kv : String × Json) : Option User :=
  if kv.1 = "self" then (decStr kv.2 u.Self).map (fun s => {u with Self := s})
  else if kv.1 = "accountId" then (decStr kv.2 u.AccountID).map (fun s => {u with AccountID := s})
  else if kv.1 = "accountType" then (decStr kv.2 u.AccountType).map (fun s => {u with AccountType := s})
  else if kv.1 = "name" then (decStr kv.2 u.Name).map (fun s => {u with Name := s})
  else if kv.1 = "key" then (decStr kv.2 u.Key).map (fun s => {u with Key := s})
  else if kv.1 = "emailAddress" then (decStr kv.2 u.EmailAddress).map (fun s => {u with EmailAddress := s})
  else if kv.1 = "avatarUrls" then (decodeAvatarUrls u.AvatarUrls kv.2).map (fun a => {u with AvatarUrls := a})
  else if kv.1 = "displayName" then (decStr kv.2 u.DisplayName).map (fun s => {u with DisplayName := s})
  else if kv.1 = "active" then
    (match kv.2 with
     | Json.bool b => some {u with Active := b}
     | Json.null => some u
     | _ => none)
  else if kv.1 = "timeZone" then (decStr kv.2 u.TimeZone).map (fun s => {u with TimeZone := s})
  else if kv.1 = "locale" then (decStr kv.2 u.Locale).map (fun s => {u with Locale := s})
  else if kv.1 = "applicationKeys" then (decStrList kv.2).map (fun l => {u with ApplicationKeys := l})
  else some u

/-- Go `json.Unmarshal` of a JSON value into a fresh `*User` (`new(User)`
starts from the zero value): the value must be an object (or `null`, a no-op
in Go); object members are folded left to right, later keys overwriting. -/
def decodeUser (j : Json) : Option User :=
  match j with
  | Json.obj fs => fs.foldlM setField {}
  | Json.null => some {}
  | _ => none

/-! ## Search parameters and functional options (`user.go` lines 42-49, 204-234) -/

/-- `userSearchParam` from `user.go` lines 42-45. -/
structure userSearchParam where
  name : String
  value : String
  deriving DecidableEq

/-- `userSearch` from `user.go` line 47. -/
abbrev userSearch := List userSearchParam

/-- `userSearchF` from `user.go` line 49. -/
abbrev userSearchF := userSearch → userSearch

/-- Go `fmt.Sprintf("%t", b)`. -/
def goFmtBool (b : Bool) : String := if b then "true" else "false"

/-- `WithMaxResults` from `user.go` lines 205-210; `fmt.Sprintf("%d", n)` is
decimal formatting of the integer. -/
def WithMaxResults (maxResults : Int) : userSearchF :=
  fun s => s ++ [⟨"maxResults", toString maxResults⟩]

/-- `WithStartAt` from `user.go` lines 213-218. -/
def WithStartAt (startAt : Int) : userSearchF :=
  fun s => s ++ [⟨"startAt", toString startAt⟩]

/-- `WithActive` from `user.go` lines 221-226. -/
def WithActive (active : Bool) : userSearchF :=
  fun s => s ++ [⟨"includeActive", goFmtBool active⟩]

/-- `WithInactive` from `user.go` lines 229-234. -/
def WithInactive (inactive : Bool) : userSearchF :=
  fun s => s ++ [⟨"includeInactive", goFmtBool inactive⟩]

/-- The accumulated search list built by `FindWithContext` lines 241-249:
start from the single `username` parameter and apply the tweaks in order. -/
def findSearchList (property : String) (tweaks : List userSearchF) : userSearch :=
  tweaks.foldl (fun s f => f s) [⟨"username", property⟩]

/-- The raw query string of `FindWithContext` lines 251-254: concatenate
`name=value&` for each parameter. -/
def findRawQueryString (search : userSearch) : String :=
  search.foldl (fun q p => q ++ p.name ++ "=" ++ p.value ++ "&") ""

/-- Go slice `s[:len(s)-1]` on the query string: drop the final byte.  Here
the final byte is always the single-byte `&` the loop just appended, so it
coincides with dropping the final character. -/
def dropLastByte (s : String) : String := ⟨s.data.dropLast⟩

/-- The query string `FindWithContext` embeds into the URL at line 256:
the raw concatenation with its trailing `&` sliced off. -/
def findQueryString (property : String) (tweaks : List userSearchF) : String :=
  dropLastByte (findRawQueryString (findSearchList property tweaks))

/-- The four provided search-option modifiers, as abstract data so that
"for every list of applied modifiers" can be quantified. -/
inductive Modifier where
  | maxResults (n : Int)
  | startAt (n : Int)
  | active (b : Bool)
  | inactive (b : Bool)
  deriving DecidableEq

/-- The `userSearchF` of a modifier, through the source's constructors. -/
def Modifier.toF : Modifier → userSearchF
  | Modifier.maxResults n => WithMaxResults n
  | Modifier.startAt n => WithStartAt n
  | Modifier.active b => WithActive b
  | Modifier.inactive b => WithInactive b

/-- The single query parameter a modifier contributes. -/
def Modifier.param : Modifier → userSearchParam
  | Modifier.maxResults n => ⟨"maxResults", toString n⟩
  | Modifier.startAt n => ⟨"startAt", toString n⟩
  | Modifier.active b => ⟨"includeActive", goFmtBool b⟩
  | Modifier.inactive b => ⟨"includeInactive", goFmtBool b⟩

/-! ## HTTP request/response/error model

`Response`, `NewRequestWithContext`, `Do` and `NewJiraError` live outside
`user.go` (in the generic client), so they are modelled from the spec:
the client exposes "build a request (method, path, optional body) bound to a
cancellation context, and execute a request producing a typed-decoded result
plus a raw response handle plus an error"; errors from a failed or rejected
exchange are "wrapped with response context (status, body snippet)". -/

/-- A response body as seen by the create path: it can fail to read
(`ioutil.ReadAll` errors), or read to bytes that are empty, valid JSON text,
or non-JSON garbage. -/
inductive Body where
  | unreadable
  | empty
  | jsonText (j : Json)
  | invalid

/-- The bytes obtained once a body has been read successfully. -/
inductive BodyBytes where
  | empty
  | jsonText (j : Json)
  | invalid

/-- `ioutil.ReadAll(resp.Body)`: fails on an unreadable stream, otherwise
returns the bytes. -/
def readAll : Body → Option BodyBytes
  | Body.unreadable => none
  | Body.empty => some BodyBytes.empty
  | Body.jsonText j => some (BodyBytes.jsonText j)
  | Body.invalid => some BodyBytes.invalid

/-- `json.Unmarshal(data, responseUser)` on the read bytes: empty input and
non-JSON input are errors; valid JSON is decoded into a fresh `User`. -/
def jsonUnmarshalUser : BodyBytes → Option User
  | BodyBytes.empty => none
  | BodyBytes.jsonText j => decodeUser j
  | BodyBytes.invalid => none

/-- Modelled from the spec: the raw response handle returned by the
executor, carrying the HTTP status and the body stream. -/
structure Response where
  status : Nat
  body : Body

/-- The error values flowing through the module: a request-construction
failure, a raw executor failure, a `fmt.Errorf` message, or a `NewJiraError`
wrapping that adds response context. -/
inductive JError where
  | buildFailure (msg : String)
  | execFailure (msg : String)
  | errorf (msg : String)
  | jiraWrapped (resp : Option Response) (inner : JError)

/-- Modelled from the spec: `NewJiraError` (defined outside `user.go`) wraps
an error with response context (status, body snippet) before it is returned. -/
def NewJiraError (resp : Option Response) (e : JError) : JError :=
  JError.jiraWrapped resp e

/-- Whether an error is a `NewJiraError` wrapping. -/
def JError.isWrapped : JError → Bool
  | JError.jiraWrapped _ _ => true
  | _ => false

/-- An HTTP request as built by `NewRequestWithContext`: method, endpoint
(path plus query string) and the marshalled JSON object body, if any. -/
structure Request where
  method : String
  endpoint : String
  body : Option (List (String × Json))

/-- The outcome of one `s.client.Do(req, target)` call, supplied by the
environment: either a response handle plus the value decoded into the
target, or a failure carrying an optional response handle and an error. -/
inductive DoOutcome (α : Type) where
  | ok (resp : Response) (value : α)
  | fail (resp : Option Response) (err : JError)

/-- The per-call environment of an operation: the outcome of
`NewRequestWithContext` (an error, or success) and the outcome of `Do`. -/
structure OpEnv (α : Type) where
  buildErr : Option JError
  outcome : DoOutcome α

/-- What one operation call returns and does: the typed result, the raw
response handle, the error, the list of HTTP exchanges attempted (in
order), and how many times the operation itself closed a response body. -/
structure OpOutput (α : Type) where
  result : Option α
  resp : Option Response
  err : Option JError
  sent : List Request
  closes : Nat

/-! ## The seven operations of `UserService`

Each Go method `(s *UserService) XxxWithContext(ctx, ...)` is modelled as a
function of its inputs and an `OpEnv` describing what the external client
does on this call.  The context argument is opaque to `user.go` (it is only
forwarded), so it is not modelled. -/

/-- `fmt.Sprintf("/rest/api/2/user?username=%s", username)` at line 59:
the username is embedded verbatim, with no URL-encoding. -/
def getEndpoint (username : String) : String :=
  "/rest/api/2/user?username=" ++ username

/-- `fmt.Sprintf("/rest/api/2/user?accountId=%s", accountID)` at line 82. -/
def getByAccountIDEndpoint (accountID : String) : String :=
  "/rest/api/2/user?accountId=" ++ accountID

/-- `fmt.Sprintf("/rest/api/2/user?username=%s", username)` at line 141. -/
def deleteEndpoint (username : String) : String :=
  "/rest/api/2/user?username=" ++ username

/-- `fmt.Sprintf("/rest/api/2/user/groups?username=%s", username)` at line 163. -/
def getGroupsEndpoint (username : String) : String :=
  "/rest/api/2/user/groups?username=" ++ username

/-- `const apiEndpoint = "rest/api/2/myself"` at line 186: note the missing
leading slash, unlike every other endpoint of the module. -/
def getSelfEndpoint : String := "rest/api/2/myself"

/-- The endpoint of `CreateWithContext` at line 105. -/
def createEndpoint : String := "/rest/api/2/user"

/-- The search endpoint built at line 256. -/
def findEndpoint (property : String) (tweaks : List userSearchF) : String :=
  "/rest/api/2/user/search?" ++ findQueryString property tweaks

/-- `UserService.GetWithContext` (`user.go` lines 58-71). -/
def GetWithContext (username : String) (env : OpEnv User) : OpOutput User :=
  match env.buildErr with
  | some e => ⟨none, none, some e, [], 0⟩
  | none =>
    let req : Request := ⟨"GET", getEndpoint username, none⟩
    match env.outcome with
    | DoOutcome.fail resp e => ⟨none, resp, some (NewJiraError resp e), [req], 0⟩
    | DoOutcome.ok resp user => ⟨some user, some resp, none, [req], 0⟩

/-- `UserService.GetByAccountIDWithContext` (`user.go` lines 81-94). -/
def GetByAccountIDWithContext (accountID : String) (env : OpEnv User) : OpOutput User :=
  match env.buildErr with
  | some e => ⟨none, none, some e, [], 0⟩
  | none =>
    let req : Request := ⟨"GET", getByAccountIDEndpoint accountID, none⟩
    match env.outcome with
    | DoOutcome.fail resp e => ⟨none, resp, some (NewJiraError resp e), [req], 0⟩
    | DoOutcome.ok resp user => ⟨some user, some resp, none, [req], 0⟩

/-- `UserService.CreateWithContext` (`user.go` lines 104-129).  The request
body is the JSON marshalling of the input `User`; `Do` is called with a nil
decode target; on a `Do` error the raw error is returned as-is and the body
is never closed; otherwise `defer resp.Body.Close()` makes every later exit
close the body exactly once, and the body is read and unmarshalled by hand,
each failure being wrapped by `NewJiraError` around a fresh `fmt.Errorf`. -/
def CreateWithContext (user : User) (env : OpEnv Unit) : OpOutput User :=
  match env.buildErr with
  | some e => ⟨none, none, some e, [], 0⟩
  | none =>
    let req : Request := ⟨"POST", createEndpoint, some (marshalUser user)⟩
    match env.outcome with
    | DoOutcome.fail resp e => ⟨none, resp, some e, [req], 0⟩
    | DoOutcome.ok resp _ =>
      match readAll resp.body with
      | none =>
          ⟨none, some resp,
           some (NewJiraError (some resp) (JError.errorf "could not read the returned data")),
           [req], 1⟩
      | some data =>
        match jsonUnmarshalUser data with
        | none =>
            ⟨none, some resp,
             some (NewJiraError (some resp) (JError.errorf "could not unmarshall the data into struct")),
             [req], 1⟩
        | some responseUser => ⟨some responseUser, some resp, none, [req], 1⟩

/-- `UserService.DeleteWithContext` (`user.go` lines 140-152).  The Go
method returns only `(resp, err)`; `result = some ()` marks the no-error
return. -/
def DeleteWithContext (username : String) (env : OpEnv Unit) : OpOutput Unit :=
  match env.buildErr with
  | some e => ⟨none, none, some e, [], 0⟩
  | none =>
    let req : Request := ⟨"DELETE", deleteEndpoint username, none⟩
    match env.outcome with
    | DoOutcome.fail resp e => ⟨none, resp, some (NewJiraError resp e), [req], 0⟩
    | DoOutcome.ok resp _ => ⟨some (), some resp, none, [req], 0⟩

/-- `UserService.GetGroupsWithContext` (`user.go` lines 162-175). -/
def GetGroupsWithContext (username : String) (env : OpEnv (List UserGroup)) :
    OpOutput (List UserGroup) :=
  match env.buildErr with
  | some e => ⟨none, none, some e, [], 0⟩
  | none =>
    let req : Request := ⟨"GET", getGroupsEndpoint username, none⟩
    match env.outcome with
    | DoOutcome.fail resp e => ⟨none, resp, some (NewJiraError resp e), [req], 0⟩
    | DoOutcome.ok resp groups => ⟨some groups, some resp, none, [req], 0⟩

/-- `UserService.GetSelfWithContext` (`user.go` lines 185-197). -/
def GetSelfWithContext (env : OpEnv User) : OpOutput User :=
  match env.buildErr with
  | some e => ⟨none, none, some e, [], 0⟩
  | none =>
    let req : Request := ⟨"GET", getSelfEndpoint, none⟩
    match env.outcome with
    | DoOutcome.fail resp e => ⟨none, resp, some (NewJiraError resp e), [req], 0⟩
    | DoOutcome.ok resp user => ⟨some user, some resp, none, [req], 0⟩

/-- `UserService.FindWithContext` (`user.go` lines 240-268). -/
def FindWithContext (property : String) (tweaks : List userSearchF)
    (env : OpEnv (List User)) : OpOutput (List User) :=
  match env.buildErr with
  | some e => ⟨none, none, some e, [], 0⟩
  | none =>
    let req : Request := ⟨"GET", findEndpoint property tweaks, none⟩
    match env.outcome with
    | DoOutcome.fail resp e => ⟨none, resp, some (NewJiraError resp e), [req], 0⟩
    | DoOutcome.ok resp users => ⟨some users, some resp, none, [req], 0⟩

/-! ## Sample environments used by witnesses and counterexamples -/

/-- A sample response handle: HTTP 500 with an empty body. -/
def respX : Response := ⟨500, Body.empty⟩

/-- A sample raw executor error. -/
def rawErrX : JError := JError.execFailure "connection reset"

/-- An environment where request building succeeds and `Do` fails,
returning a response handle together with the raw error. -/
def failEnv (α : Type) : OpEnv α := ⟨none, DoOutcome.fail (some respX) rawErrX⟩

/-- An environment where `NewRequestWithContext` itself fails. -/
def buildFailEnv (α : Type) : OpEnv α :=
  ⟨some (JError.buildFailure "invalid input encoding"), DoOutcome.fail none rawErrX⟩

/-- An environment where `Do` succeeds with the given response body. -/
def okEnv (b : Body) : OpEnv Unit := ⟨none, DoOutcome.ok ⟨201, b⟩ ()⟩

/-! ## Lemmas about the search modifiers and the query string -/

theorem Modifier.toF_eq_append (m : Modifier) (s : userSearch) :
    m.toF s = s ++ [m.param] := by
  cases m <;> rfl

theorem foldl_toF_eq_append (mods : List Modifier) (init : userSearch) :
    (mods.map Modifier.toF).foldl (fun s f => f s) init =
      init ++ mods.map Modifier.param := by
  induction mods generalizing init with
  | nil => simp
  | cons m ms ih =>
      simp only [List.map_cons, List.foldl_cons, Modifier.toF_eq_append, ih,
        List.append_assoc, List.singleton_append]

theorem findSearchList_modifiers (property : String) (mods : List Modifier) :
    findSearchList property (mods.map Modifier.toF) =
      ⟨"username", property⟩ :: mods.map Modifier.param := by
  simp [findSearchList, foldl_toF_eq_append]

theorem dropLastByte_concat_amp (s : String) : dropLastByte (s ++ "&") = s := by
  cases s with
  | mk data =>
      show String.mk ((data ++ ['&']).dropLast) = String.mk data
      rw [List.dropLast_concat]

theorem findQueryString_no_modifiers (property : String) :
    findQueryString property [] = "username=" ++ property := by
  show dropLastByte (("username=" ++ property) ++ "&") = "username=" ++ property
  exact dropLastByte_concat_amp _

/-- Claim C3: find/search with no modifiers yields exactly
`username=<property>` with no trailing separator; each applied modifier
appends exactly one corresponding parameter in caller order; and
`Find(ctx, "jdoe", WithMaxResults(10), WithActive(true))` produces the
query string `username=jdoe&maxResults=10&includeActive=true`. -/
theorem C3_find_query_string :
    (∀ property, findQueryString property [] = "username=" ++ property) ∧
    (∀ property (mods : List Modifier),
        findSearchList property (mods.map Modifier.toF) =
          ⟨"username", property⟩ :: mods.map Modifier.param) ∧
    findQueryString "jdoe" [WithMaxResults 10, WithActive true] =
      "username=jdoe&maxResults=10&includeActive=true" :=
  ⟨findQueryString_no_modifiers, findSearchList_modifiers, by decide⟩

/-- Claim C4: every provided modifier appends exactly one new (name, value)
pair, never removing or overwriting existing pairs; two modifiers with the
same parameter name therefore both appear in the query string. -/
theorem C4_modifiers_append_only :
    (∀ (m : Modifier) (s : userSearch), m.toF s = s ++ [m.param]) ∧
    (∀ s n, WithMaxResults n s = s ++ [⟨"maxResults", toString n⟩]) ∧
    (∀ s n, WithStartAt n s = s ++ [⟨"startAt", toString n⟩]) ∧
    (∀ s b, WithActive b s = s ++ [⟨"includeActive", goFmtBool b⟩]) ∧
    (∀ s b, WithInactive b s = s ++ [⟨"includeInactive", goFmtBool b⟩]) ∧
    findQueryString "u" [WithMaxResults 1, WithMaxResults 2] =
      "username=u&maxResults=1&maxResults=2" :=
  ⟨Modifier.toF_eq_append, fun _ _ => rfl, fun _ _ => rfl, fun _ _ => rfl,
   fun _ _ => rfl, by decide⟩

/-! ## Lemmas about `User` marshalling and decoding -/

theorem mem_omitStr (kv : String × Json) (k v : String) (h : kv ∈ omitStr k v) :
    kv.1 = k ∧ v ≠ "" := by
  by_cases hv : v = ""
  · simp [omitStr, hv] at h
  · rw [omitStr, if_neg hv, List.mem_singleton] at h
    subst h
    exact ⟨rfl, hv⟩

/-- Every key emitted by `marshalUser` is one of the twelve JSON tags of
`User`, and each `omitempty` key appears only when its field is non-zero.
In particular no key `"password"` is ever emitted. -/
theorem marshalUser_key_cond (u : User) (kv : String × Json)
    (h : kv ∈ marshalUser u) :
    (kv.1 = "self" ∧ u.Self ≠ "") ∨ (kv.1 = "accountId" ∧ u.AccountID ≠ "") ∨
    (kv.1 = "accountType" ∧ u.AccountType ≠ "") ∨ (kv.1 = "name" ∧ u.Name ≠ "") ∨
    (kv.1 = "key" ∧ u.Key ≠ "") ∨ (kv.1 = "emailAddress" ∧ u.EmailAddress ≠ "") ∨
    kv.1 = "avatarUrls" ∨ (kv.1 = "displayName" ∧ u.DisplayName ≠ "") ∨
    (kv.1 = "active" ∧ u.Active = true) ∨ (kv.1 = "timeZone" ∧ u.TimeZone ≠ "") ∨
    (kv.1 = "locale" ∧ u.Locale ≠ "") ∨
    (kv.1 = "applicationKeys" ∧ u.ApplicationKeys ≠ []) := by
  simp only [marshalUser, List.mem_append] at h
  rcases h with (((((((((((h|h)|h)|h)|h)|h)|h)|h)|h)|h)|h)|h)
  · exact Or.inl (mem_omitStr kv _ _ h)
  · exact Or.inr (Or.inl (mem_omitStr kv _ _ h))
  · exact Or.inr (Or.inr (Or.inl (mem_omitStr kv _ _ h)))
  · exact Or.inr (Or.inr (Or.inr (Or.inl (mem_omitStr kv _ _ h))))
  · exact Or.inr (Or.inr (Or.inr (Or.inr (Or.inl (mem_omitStr kv _ _ h)))))
  · exact Or.inr (Or.inr (Or.inr (Or.inr (Or.inr (Or.inl (mem_omitStr kv _ _ h))))))
  · rw [List.mem_singleton] at h
    subst h
    exact Or.inr (Or.inr (Or.inr (Or.inr (Or.inr (Or.inr (Or.inl rfl))))))
  · exact Or.inr (Or.inr (Or.inr (Or.inr (Or.inr (Or.inr (Or.inr (Or.inl
      (mem_omitStr kv _ _ h))))))))
  · by_cases hA : u.Active
    · rw [if_pos hA, List.mem_singleton] at h
      subst h
      exact Or.inr (Or.inr (Or.inr (Or.inr (Or.inr (Or.inr (Or.inr (Or.inr
        (Or.inl ⟨rfl, hA⟩))))))))
    · rw [if_neg hA] at h
      cases h
  · exact Or.inr (Or.inr (Or.inr (Or.inr (Or.inr (Or.inr (Or.inr (Or.inr (Or.inr
      (Or.inl (mem_omitStr kv _ _ h))))))))))
  · exact Or.inr (Or.inr (Or.inr (Or.inr (Or.inr (Or.inr (Or.inr (Or.inr (Or.inr
      (Or.inr (Or.inl (mem_omitStr kv _ _ h)))))))))))
  · by_cases hK : u.ApplicationKeys.isEmpty
    · rw [if_pos hK] at h
      cases h
    · rw [if_neg hK, List.mem_singleton] at h
      subst h
      refine Or.inr (Or.inr (Or.inr (Or.inr (Or.inr (Or.inr (Or.inr (Or.inr (Or.inr
        (Or.inr (Or.inr ⟨rfl, ?_⟩))))))))))
      simpa [List.isEmpty_iff] using hK

theorem marshalUser_no_password_key (u : User) (kv : String × Json)
    (h : kv ∈ marshalUser u) : kv.1 ≠ "password" := by
  rcases marshalUser_key_cond u kv h with
    ⟨h1,-⟩|⟨h1,-⟩|⟨h1,-⟩|⟨h1,-⟩|⟨h1,-⟩|⟨h1,-⟩|h1|⟨h1,-⟩|⟨h1,-⟩|⟨h1,-⟩|⟨h1,-⟩|⟨h1,-⟩ <;>
    (rw [h1]; decide)

theorem map_preserves_password {β : Type} (o : Option β) (f : β → User)
    (u u' : User) (h : Option.map f o = some u')
    (hf : ∀ b, (f b).Password = u.Password) : u'.Password = u.Password := by
  obtain ⟨a, -, rfl⟩ := Option.map_eq_some'.mp h
  exact hf a

theorem setField_preserves_password (u : User) (kv : String × Json) (u' : User)
    (h : setField u kv = some u') : u'.Password = u.Password := by
  obtain ⟨k, v⟩ := kv
  simp only [setField] at h
  by_cases h1 : k = "self"
  · rw [if_pos h1] at h; exact map_preserves_password _ _ u u' h (fun _ => rfl)
  rw [if_neg h1] at h
  by_cases h2 : k = "accountId"
  · rw [if_pos h2] at h; exact map_preserves_password _ _ u u' h (fun _ => rfl)
  rw [if_neg h2] at h
  by_cases h3 : k = "accountType"
  · rw [if_pos h3] at h; exact map_preserves_password _ _ u u' h (fun _ => rfl)
  rw [if_neg h3] at h
  by_cases h4 : k = "name"
  · rw [if_pos h4] at h; exact map_preserves_password _ _ u u' h (fun _ => rfl)
  rw [if_neg h4] at h
  by_cases h5 : k = "key"
  · rw [if_pos h5] at h; exact map_preserves_password _ _ u u' h (fun _ => rfl)
  rw [if_neg h5] at h
  by_cases h6 : k = "emailAddress"
  · rw [if_pos h6] at h; exact map_preserves_password _ _ u u' h (fun _ => rfl)
  rw [if_neg h6] at h
  by_cases h7 : k = "avatarUrls"
  · rw [if_pos h7] at h; exact map_preserves_password _ _ u u' h (fun _ => rfl)
  rw [if_neg h7] at h
  by_cases h8 : k = "displayName"
  · rw [if_pos h8] at h; exact map_preserves_password _ _ u u' h (fun _ => rfl)
  rw [if_neg h8] at h
  by_cases h9 : k = "active"
  · rw [if_pos h9] at h
    cases v <;>
      first
        | (injection h with h; subst h; rfl)
        | exact Option.noConfusion h
  rw [if_neg h9] at h
  by_cases h10 : k = "timeZone"
  · rw [if_pos h10] at h; exact map_preserves_password _ _ u u' h (fun _ => rfl)
  rw [if_neg h10] at h
  by_cases h11 : k = "locale"
  · rw [if_pos h11] at h; exact map_preserves_password _ _ u u' h (fun _ => rfl)
  rw [if_neg h11] at h
  by_cases h12 : k = "applicationKeys"
  · rw [if_pos h12] at h; exact map_preserves_password _ _ u u' h (fun _ => rfl)
  rw [if_neg h12] at h
  injection h with h
  subst h
  rfl

theorem foldlM_setField_password (fs : List (String × Json)) (u0 u : User)
    (h : List.foldlM setField u0 fs = some u) : u.Password = u0.Password := by
  induction fs generalizing u0 with
  | nil =>
      simp only [List.foldlM_nil] at h
      injection h with h
      rw [h]
  | cons kv fs ih =>
      rw [List.foldlM_cons] at h
      cases hstep : setField u0 kv with
      | none => rw [hstep] at h; simp at h
      | some u1 =>
          rw [hstep] at h
          rw [ih u1 h]
          exact setField_preserves_password u0 kv u1 hstep

/-- The `User` produced by `decodeUser` never carries a password: the
`json:"-"` tag keeps every JSON member away from the `Password` field. -/
theorem decodeUser_password (j : Json) (u : User) (h : decodeUser j = some u) :
    u.Password = "" := by
  cases j with
  | obj fs =>
      simp only [decodeUser] at h
      exact foldlM_setField_password fs {} u h
  | null =>
      simp only [decodeUser] at h
      injection h with h
      subst h
      rfl
  | bool b => simp [decodeUser] at h
  | num n => simp [decodeUser] at h
  | str s => simp [decodeUser] at h
  | arr es => simp [decodeUser] at h

theorem jsonUnmarshalUser_password (data : BodyBytes) (ru : User)
    (h : jsonUnmarshalUser data = some ru) : ru.Password = "" := by
  cases data with
  | empty => exact Option.noConfusion h
  | invalid => exact Option.noConfusion h
  | jsonText j => exact decodeUser_password j ru h

/-! ## Evaluation lemmas for the create path -/

theorem create_build_fail (u : User) (oc : DoOutcome Unit) (e : JError) :
    CreateWithContext u ⟨some e, oc⟩ = ⟨none, none, some e, [], 0⟩ := rfl

theorem create_do_fail (u : User) (resp : Option Response) (e : JError) :
    CreateWithContext u ⟨none, DoOutcome.fail resp e⟩ =
      ⟨none, resp, some e, [⟨"POST", createEndpoint, some (marshalUser u)⟩], 0⟩ := rfl

theorem create_read_fail (u : User) (resp : Response)
    (hr : readAll resp.body = none) :
    CreateWithContext u ⟨none, DoOutcome.ok resp ()⟩ =
      ⟨none, some resp,
       some (NewJiraError (some resp) (JError.errorf "could not read the returned data")),
       [⟨"POST", createEndpoint, some (marshalUser u)⟩], 1⟩ := by
  simp only [CreateWithContext, hr]

theorem create_unmarshal_fail (u : User) (resp : Response) (data : BodyBytes)
    (hr : readAll resp.body = some data) (hm : jsonUnmarshalUser data = none) :
    CreateWithContext u ⟨none, DoOutcome.ok resp ()⟩ =
      ⟨none, some resp,
       some (NewJiraError (some resp) (JError.errorf "could not unmarshall the data into struct")),
       [⟨"POST", createEndpoint, some (marshalUser u)⟩], 1⟩ := by
  simp only [CreateWithContext, hr, hm]

theorem create_decode_ok (u : User) (resp : Response) (data : BodyBytes) (ru : User)
    (hr : readAll resp.body = some data) (hm : jsonUnmarshalUser data = some ru) :
    CreateWithContext u ⟨none, DoOutcome.ok resp ()⟩ =
      ⟨some ru, some resp, none, [⟨"POST", createEndpoint, some (marshalUser u)⟩], 1⟩ := by
  simp only [CreateWithContext, hr, hm]

/-! ## Claim C1 -/

/-- Claim C1: the JSON body of the create POST contains no `"password"` key
and is independent of the input's `Password` field (two `User` values
differing only in `Password` produce identical request bodies), and the
`User` returned by create never carries a password value regardless of what
the server returns for that field. -/
theorem C1_password_confidentiality :
    (∀ u p, marshalUser {u with Password := p} = marshalUser u) ∧
    (∀ u kv, kv ∈ marshalUser u → kv.1 ≠ "password") ∧
    (∀ u (env : OpEnv Unit), env.buildErr = none →
        (CreateWithContext u env).sent =
          [⟨"POST", createEndpoint, some (marshalUser u)⟩]) ∧
    (∀ u (env : OpEnv Unit) ru,
        (CreateWithContext u env).result = some ru → ru.Password = "") := by
  refine ⟨fun u p => rfl, marshalUser_no_password_key, ?_, ?_⟩
  · intro u env hbe
    rcases env with ⟨be, oc⟩
    cases hbe
    cases oc with
    | fail resp e => rfl
    | ok resp v =>
        cases v
        cases hr : readAll resp.body with
        | none => rw [create_read_fail u resp hr]
        | some data =>
            cases hm : jsonUnmarshalUser data with
            | none => rw [create_unmarshal_fail u resp data hr hm]
            | some ru => rw [create_decode_ok u resp data ru hr hm]
  · intro u env ru h
    rcases env with ⟨be, oc⟩
    cases be with
    | some e => exact Option.noConfusion h
    | none =>
        cases oc with
        | fail resp e => exact Option.noConfusion h
        | ok resp v =>
            cases v
            cases hr : readAll resp.body with
            | none =>
                rw [create_read_fail u resp hr] at h
                exact Option.noConfusion h
            | some data =>
                cases hm : jsonUnmarshalUser data with
                | none =>
                    rw [create_unmarshal_fail u resp data hr hm] at h
                    exact Option.noConfusion h
                | some ru2 =>
                    rw [create_decode_ok u resp data ru2 hr hm] at h
                    injection h with h
                    subst h
                    exact jsonUnmarshalUser_password data ru2 hm

/-- A sample create input whose password is set. -/
def uSecret : User := { Name := "jdoe", Password := "secret" }

/-- A sample create-response body in which the server echoes a password. -/
def leakBody : Body :=
  Body.jsonText (Json.obj [("name", Json.str "x"), ("password", Json.str "leak")])

theorem C1_password_confidentiality_witness :
    marshalUser { uSecret with Password := "other" } = marshalUser uSecret ∧
    (("name", Json.str "jdoe") : String × Json).1 ≠ "password" ∧
    (CreateWithContext uSecret (okEnv leakBody)).sent =
      [⟨"POST", createEndpoint, some (marshalUser uSecret)⟩] ∧
    ({ Name := "x" } : User).Password = "" :=
  ⟨C1_password_confidentiality.1 uSecret "other",
   C1_password_confidentiality.2.1 uSecret ("name", Json.str "jdoe") (List.Mem.head _),
   C1_password_confidentiality.2.2.1 uSecret (okEnv leakBody) rfl,
   C1_password_confidentiality.2.2.2 uSecret (okEnv leakBody) { Name := "x" } rfl⟩

/-! ## Claim C2 (corrected): create returns the raw executor error -/

/-- Claim C2 as stated is false: on the create path (`user.go` line 113) a
failed execution returns the raw executor error, not a `NewJiraError`
wrapping.  Concretely, with a failing executor the error create hands back
is the raw `rawErrX`, which carries no response context. -/
theorem C2_counterexample_create_raw_error :
    (CreateWithContext {} (failEnv Unit)).err = some rawErrX ∧
    rawErrX.isWrapped = false :=
  ⟨rfl, rfl⟩

/-- Claim C2 amended: every operation except create wraps a failed or
rejected execution with `NewJiraError` response context; create alone
returns the executor error unwrapped. -/
theorem C2_amended_error_wrapping :
    (∀ username (env : OpEnv User) resp e, env.buildErr = none →
        env.outcome = DoOutcome.fail resp e →
        (GetWithContext username env).err = some (NewJiraError resp e)) ∧
    (∀ accountID (env : OpEnv User) resp e, env.buildErr = none →
        env.outcome = DoOutcome.fail resp e →
        (GetByAccountIDWithContext accountID env).err = some (NewJiraError resp e)) ∧
    (∀ username (env : OpEnv Unit) resp e, env.buildErr = none →
        env.outcome = DoOutcome.fail resp e →
        (DeleteWithContext username env).err = some (NewJiraError resp e)) ∧
    (∀ username (env : OpEnv (List UserGroup)) resp e, env.buildErr = none →
        env.outcome = DoOutcome.fail resp e →
        (GetGroupsWithContext username env).err = some (NewJiraError resp e)) ∧
    (∀ (env : OpEnv User) resp e, env.buildErr = none →
        env.outcome = DoOutcome.fail resp e →
        (GetSelfWithContext env).err = some (NewJiraError resp e)) ∧
    (∀ property tweaks (env : OpEnv (List User)) resp e, env.buildErr = none →
        env.outcome = DoOutcome.fail resp e →
        (FindWithContext property tweaks env).err = some (NewJiraError resp e)) ∧
    (∀ u (env : OpEnv Unit) resp e, env.buildErr = none →
        env.outcome = DoOutcome.fail resp e →
        (CreateWithContext u env).err = some e) := by
  refine ⟨?_, ?_, ?_, ?_, ?_, ?_, ?_⟩
  · intro _ env resp e hbe ho
    rcases env with ⟨be, oc⟩
    cases hbe; cases ho; rfl
  · intro _ env resp e hbe ho
    rcases env with ⟨be, oc⟩
    cases hbe; cases ho; rfl
  · intro _ env resp e hbe ho
    rcases env with ⟨be, oc⟩
    cases hbe; cases ho; rfl
  · intro _ env resp e hbe ho
    rcases env with ⟨be, oc⟩
    cases hbe; cases ho; rfl
  · intro env resp e hbe ho
    rcases env with ⟨be, oc⟩
    cases hbe; cases ho; rfl
  · intro _ _ env resp e hbe ho
    rcases env with ⟨be, oc⟩
    cases hbe; cases ho; rfl
  · intro _ env resp e hbe ho
    rcases env with ⟨be, oc⟩
    cases hbe; cases ho; rfl

theorem C2_amended_error_wrapping_witness :
    (GetWithContext "u" (failEnv User)).err = some (NewJiraError (some respX) rawErrX) ∧
    (GetByAccountIDWithContext "a" (failEnv User)).err = some (NewJiraError (some respX) rawErrX) ∧
    (DeleteWithContext "u" (failEnv Unit)).err = some (NewJiraError (some respX) rawErrX) ∧
    (GetGroupsWithContext "u" (failEnv (List UserGroup))).err = some (NewJiraError (some respX) rawErrX) ∧
    (GetSelfWithContext (failEnv User)).err = some (NewJiraError (some respX) rawErrX) ∧
    (FindWithContext "u" [] (failEnv (List User))).err = some (NewJiraError (some respX) rawErrX) ∧
    (CreateWithContext {} (failEnv Unit)).err = some rawErrX :=
  ⟨C2_amended_error_wrapping.1 "u" (failEnv User) (some respX) rawErrX rfl rfl,
   C2_amended_error_wrapping.2.1 "a" (failEnv User) (some respX) rawErrX rfl rfl,
   C2_amended_error_wrapping.2.2.1 "u" (failEnv Unit) (some respX) rawErrX rfl rfl,
   C2_amended_error_wrapping.2.2.2.1 "u" (failEnv (List UserGroup)) (some respX) rawErrX rfl rfl,
   C2_amended_error_wrapping.2.2.2.2.1 (failEnv User) (some respX) rawErrX rfl rfl,
   C2_amended_error_wrapping.2.2.2.2.2.1 "u" [] (failEnv (List User)) (some respX) rawErrX rfl rfl,
   C2_amended_error_wrapping.2.2.2.2.2.2 {} (failEnv Unit) (some respX) rawErrX rfl rfl⟩

/-! ## Claim C5 -/

/-- Claim C5: when the create transport step succeeds but the body read
back is empty or is not valid JSON for a `User`, create returns a nil
`User` together with the distinct wrapped decode-failure error, never a
nil-pointer success. -/
theorem C5_create_decode_failure (u : User) (env : OpEnv Unit) (resp : Response)
    (v : Unit) (data : BodyBytes) (hbe : env.buildErr = none)
    (ho : env.outcome = DoOutcome.ok resp v) (hr : readAll resp.body = some data)
    (hm : jsonUnmarshalUser data = none) :
    (CreateWithContext u env).result = none ∧
    (CreateWithContext u env).err =
      some (NewJiraError (some resp)
        (JError.errorf "could not unmarshall the data into struct")) := by
  rcases env with ⟨be, oc⟩
  cases hbe
  cases ho
  cases v
  rw [create_unmarshal_fail u resp data hr hm]
  exact ⟨rfl, rfl⟩

theorem C5_create_decode_failure_witness :
    (CreateWithContext {} (okEnv Body.empty)).result = none ∧
    (CreateWithContext {} (okEnv Body.empty)).err =
      some (NewJiraError (some ⟨201, Body.empty⟩)
        (JError.errorf "could not unmarshall the data into struct")) :=
  C5_create_decode_failure {} (okEnv Body.empty) ⟨201, Body.empty⟩ ()
    BodyBytes.empty rfl rfl rfl rfl

/-! ## Claim C9 (corrected): the Do-error exit does not close the body -/

/-- Claim C9 as stated is false: when `Do` itself returns an error at
`user.go` line 112, create returns before `defer resp.Body.Close()` is
registered at line 117, so that exit path closes the response body zero
times, not once, even though a response handle is present. -/
theorem C9_counterexample_no_close_on_do_error :
    (CreateWithContext {} (failEnv Unit)).resp = some respX ∧
    (CreateWithContext {} (failEnv Unit)).closes ≠ 1 :=
  ⟨rfl, by decide⟩

/-- Claim C9 amended: once the execution step succeeds, every exit path of
create (read failure, decode failure, success) closes the response body
exactly once via the deferred close; the exit where execution returns an
error closes it zero times. -/
theorem C9_amended_close_behavior (u : User) (env : OpEnv Unit) :
    (∀ resp v, env.buildErr = none → env.outcome = DoOutcome.ok resp v →
        (CreateWithContext u env).closes = 1) ∧
    (∀ resp e, env.outcome = DoOutcome.fail resp e →
        (CreateWithContext u env).closes = 0) := by
  constructor
  · intro resp v hbe ho
    rcases env with ⟨be, oc⟩
    cases hbe
    cases ho
    cases v
    cases hr : readAll resp.body with
    | none => rw [create_read_fail u resp hr]
    | some data =>
        cases hm : jsonUnmarshalUser data with
        | none => rw [create_unmarshal_fail u resp data hr hm]
        | some ru => rw [create_decode_ok u resp data ru hr hm]
  · intro resp e ho
    rcases env with ⟨be, oc⟩
    cases ho
    cases be with
    | some e2 => rfl
    | none => rfl

theorem C9_amended_close_behavior_witness :
    (CreateWithContext {} (okEnv Body.empty)).closes = 1 ∧
    (CreateWithContext {} (failEnv Unit)).closes = 0 :=
  ⟨(C9_amended_close_behavior {} (okEnv Body.empty)).1 ⟨201, Body.empty⟩ () rfl rfl,
   (C9_amended_close_behavior {} (failEnv Unit)).2 (some respX) rawErrX rfl⟩

/-! ## Claim C10 -/

/-- Claim C10: when building the HTTP request fails, every operation
returns immediately with the raw construction error, a nil result and a
nil response, and attempts no HTTP exchange. -/
theorem C10_build_failure_no_exchange :
    (∀ username (env : OpEnv User) e, env.buildErr = some e →
        GetWithContext username env = ⟨none, none, some e, [], 0⟩) ∧
    (∀ accountID (env : OpEnv User) e, env.buildErr = some e →
        GetByAccountIDWithContext accountID env = ⟨none, none, some e, [], 0⟩) ∧
    (∀ u (env : OpEnv Unit) e, env.buildErr = some e →
        CreateWithContext u env = ⟨none, none, some e, [], 0⟩) ∧
    (∀ username (env : OpEnv Unit) e, env.buildErr = some e →
        DeleteWithContext username env = ⟨none, none, some e, [], 0⟩) ∧
    (∀ username (env : OpEnv (List UserGroup)) e, env.buildErr = some e →
        GetGroupsWithContext username env = ⟨none, none, some e, [], 0⟩) ∧
    (∀ (env : OpEnv User) e, env.buildErr = some e →
        GetSelfWithContext env = ⟨none, none, some e, [], 0⟩) ∧
    (∀ property tweaks (env : OpEnv (List User)) e, env.buildErr = some e →
        FindWithContext property tweaks env = ⟨none, none, some e, [], 0⟩) := by
  refine ⟨?_, ?_, ?_, ?_, ?_, ?_, ?_⟩
  · intro _ env e h
    rcases env with ⟨be, oc⟩
    cases h; rfl
  · intro _ env e h
    rcases env with ⟨be, oc⟩
    cases h; rfl
  · intro _ env e h
    rcases env with ⟨be, oc⟩
    cases h; rfl
  · intro _ env e h
    rcases env with ⟨be, oc⟩
    cases h; rfl
  · intro _ env e h
    rcases env with ⟨be, oc⟩
    cases h; rfl
  · intro env e h
    rcases env with ⟨be, oc⟩
    cases h; rfl
  · intro _ _ env e h
    rcases env with ⟨be, oc⟩
    cases h; rfl

/-- The build error of `buildFailEnv`. -/
def buildErrX : JError := JError.buildFailure "invalid input encoding"

theorem C10_build_failure_no_exchange_witness :
    GetWithContext "u" (buildFailEnv User) = ⟨none, none, some buildErrX, [], 0⟩ ∧
    GetByAccountIDWithContext "a" (buildFailEnv User) = ⟨none, none, some buildErrX, [], 0⟩ ∧
    CreateWithContext {} (buildFailEnv Unit) = ⟨none, none, some buildErrX, [], 0⟩ ∧
    DeleteWithContext "u" (buildFailEnv Unit) = ⟨none, none, some buildErrX, [], 0⟩ ∧
    GetGroupsWithContext "u" (buildFailEnv (List UserGroup)) = ⟨none, none, some buildErrX, [], 0⟩ ∧
    GetSelfWithContext (buildFailEnv User) = ⟨none, none, some buildErrX, [], 0⟩ ∧
    FindWithContext "u" [] (buildFailEnv (List User)) = ⟨none, none, some buildErrX, [], 0⟩ :=
  ⟨C10_build_failure_no_exchange.1 "u" (buildFailEnv User) buildErrX rfl,
   C10_build_failure_no_exchange.2.1 "a" (buildFailEnv User) buildErrX rfl,
   C10_build_failure_no_exchange.2.2.1 {} (buildFailEnv Unit) buildErrX rfl,
   C10_build_failure_no_exchange.2.2.2.1 "u" (buildFailEnv Unit) buildErrX rfl,
   C10_build_failure_no_exchange.2.2.2.2.1 "u" (buildFailEnv (List UserGroup)) buildErrX rfl,
   C10_build_failure_no_exchange.2.2.2.2.2.1 (buildFailEnv User) buildErrX rfl,
   C10_build_failure_no_exchange.2.2.2.2.2.2 "u" [] (buildFailEnv (List User)) buildErrX rfl⟩

/-! ## Claim C6 (corrected): the username is embedded without URL-encoding -/

/-- Number of `&` separators in a string. -/
def countSep (s : String) : Nat := s.data.countP (fun c => c = '&')

/-- Number of `&`-separated parameters in a query string. -/
def paramCount (q : String) : Nat := countSep q + 1

theorem countSep_append (a b : String) :
    countSep (a ++ b) = countSep a + countSep b := by
  simp [countSep, String.data_append, List.countP_append]

/-- Claim C6 as stated is false: `user.go` line 59 interpolates the
username verbatim with `%s` and no URL-encoding, so the username `a&b=c`
yields the query `username=a&b=c`, which splits into two parameters, not a
well-formed single-parameter query. -/
theorem C6_counterexample_unescaped_username :
    getEndpoint "a&b=c" = "/rest/api/2/user?" ++ "username=a&b=c" ∧
    paramCount "username=a&b=c" ≠ 1 :=
  ⟨by decide, by decide⟩

/-- An environment where `Do` succeeds and decodes a `User`. -/
def okUserEnv : OpEnv User := ⟨none, DoOutcome.ok ⟨200, Body.empty⟩ {}⟩

/-- Claim C6 amended: get-by-username issues exactly one GET with an empty
request body, whose URL embeds the username verbatim (no URL-encoding) as
the `username` query parameter value; the query is a single well-formed
parameter only when the username contains no `&` separator. -/
theorem C6_amended_get_by_username (username : String) (env : OpEnv User) :
    (env.buildErr = none →
        (GetWithContext username env).sent = [⟨"GET", getEndpoint username, none⟩]) ∧
    getEndpoint username = "/rest/api/2/user?username=" ++ username ∧
    (countSep username = 0 → paramCount ("username=" ++ username) = 1) := by
  refine ⟨?_, rfl, ?_⟩
  · intro hbe
    rcases env with ⟨be, oc⟩
    cases hbe
    cases oc with
    | fail resp e => rfl
    | ok resp v => rfl
  · intro h0
    have hu : countSep "username=" = 0 := by decide
    rw [paramCount, countSep_append, hu, h0]

theorem C6_amended_get_by_username_witness :
    (GetWithContext "jdoe" okUserEnv).sent = [⟨"GET", getEndpoint "jdoe", none⟩] ∧
    getEndpoint "jdoe" = "/rest/api/2/user?username=" ++ "jdoe" ∧
    paramCount ("username=" ++ "jdoe") = 1 :=
  ⟨(C6_amended_get_by_username "jdoe" okUserEnv).1 rfl,
   (C6_amended_get_by_username "jdoe" okUserEnv).2.1,
   (C6_amended_get_by_username "jdoe" okUserEnv).2.2 (by decide)⟩

/-! ## Claim C7 (corrected): get-self lacks the leading slash -/

/-- Claim C7 as stated is false: `user.go` line 186 spells the current-user
endpoint `"rest/api/2/myself"` with no leading slash, unlike every other
endpoint of the module. -/
theorem C7_counterexample_no_leading_slash :
    getSelfEndpoint ≠ "/rest/api/2/myself" ∧
    getSelfEndpoint.data.head? ≠ some '/' :=
  ⟨by decide, by decide⟩

/-- Claim C7 amended: get-self issues a GET to the current-user path
`rest/api/2/myself`, which unlike every other endpoint of the module does
not begin with a slash. -/
theorem C7_amended_self_endpoint :
    getSelfEndpoint = "rest/api/2/myself" ∧
    (∀ env : OpEnv User, env.buildErr = none →
        (GetSelfWithContext env).sent = [⟨"GET", getSelfEndpoint, none⟩]) ∧
    getSelfEndpoint.data.head? ≠ some '/' ∧
    (∀ username, (getEndpoint username).data.head? = some '/') ∧
    (∀ accountID, (getByAccountIDEndpoint accountID).data.head? = some '/') ∧
    (∀ username, (deleteEndpoint username).data.head? = some '/') ∧
    (∀ username, (getGroupsEndpoint username).data.head? = some '/') ∧
    createEndpoint.data.head? = some '/' ∧
    (∀ property tweaks, (findEndpoint property tweaks).data.head? = some '/') := by
  refine ⟨rfl, ?_, by decide, ?_, ?_, ?_, ?_, rfl, ?_⟩
  · intro env hbe
    rcases env with ⟨be, oc⟩
    cases hbe
    cases oc with
    | fail resp e => rfl
    | ok resp v => rfl
  · intro username
    cases username with
    | mk d => rfl
  · intro accountID
    cases accountID with
    | mk d => rfl
  · intro username
    cases username with
    | mk d => rfl
  · intro username
    cases username with
    | mk d => rfl
  · intro property tweaks
    generalize findQueryString property tweaks = q
    cases q with
    | mk d => rfl

theorem C7_amended_self_endpoint_witness :
    (GetSelfWithContext okUserEnv).sent = [⟨"GET", getSelfEndpoint, none⟩] :=
  C7_amended_self_endpoint.2.1 okUserEnv rfl

/-! ## Claim C8 (corrected): `omitempty` collapses zero values into absence -/

/-- A sample `User` whose `Active` and `EmailAddress` fields are explicitly
set to their zero values. -/
def uZero : User := { DisplayName := "jdoe", Active := false, EmailAddress := "" }

/-- Claim C8 as stated is false: with `omitempty` tags, a `false` bool or
empty string is omitted from the serialized JSON, and the decoder maps a
missing key and an explicit zero to the same struct value, so an explicitly
false `active` does not round-trip to a state distinguishable from the
field being absent. -/
theorem C8_counterexample_zero_values_collapse :
    ((marshalUser uZero).map Prod.fst).contains "active" = false ∧
    ((marshalUser uZero).map Prod.fst).contains "emailAddress" = false ∧
    decodeUser (Json.obj [("displayName", Json.str "jdoe"), ("active", Json.bool false)]) =
      decodeUser (Json.obj [("displayName", Json.str "jdoe")]) := by
  refine ⟨rfl, rfl, ?_⟩
  rfl

/-- Claim C8 amended: the serialization collapses zero values into absence
rather than keeping them distinguishable: whenever `Active` is `false` no
`"active"` key is emitted and whenever `EmailAddress` is empty no
`"emailAddress"` key is emitted, and the decoder yields the same `User` for
an explicit zero value as for an absent key. -/
theorem C8_amended_zero_values_collapse :
    (∀ u, u.Active = false → ∀ kv, kv ∈ marshalUser u → kv.1 ≠ "active") ∧
    (∀ u, u.EmailAddress = "" → ∀ kv, kv ∈ marshalUser u → kv.1 ≠ "emailAddress") ∧
    (∀ fs, decodeUser (Json.obj (("active", Json.bool false) :: fs)) =
        decodeUser (Json.obj fs)) ∧
    (∀ fs, decodeUser (Json.obj (("emailAddress", Json.str "") :: fs)) =
        decodeUser (Json.obj fs)) := by
  refine ⟨?_, ?_, ?_, ?_⟩
  · intro u hA kv h
    rcases marshalUser_key_cond u kv h with
      ⟨h1,-⟩|⟨h1,-⟩|⟨h1,-⟩|⟨h1,-⟩|⟨h1,-⟩|⟨h1,-⟩|h1|⟨h1,-⟩|⟨h1,h2⟩|⟨h1,-⟩|⟨h1,-⟩|⟨h1,-⟩
    all_goals first
      | (rw [h1]; decide)
      | (rw [hA] at h2; exact Bool.noConfusion h2)
  · intro u hE kv h
    rcases marshalUser_key_cond u kv h with
      ⟨h1,-⟩|⟨h1,-⟩|⟨h1,-⟩|⟨h1,-⟩|⟨h1,-⟩|⟨h1,h2⟩|h1|⟨h1,-⟩|⟨h1,-⟩|⟨h1,-⟩|⟨h1,-⟩|⟨h1,-⟩
    all_goals first
      | (rw [h1]; decide)
      | exact absurd hE h2
  · intro fs
    simp only [decodeUser, List.foldlM_cons]
    have h : setField {} ("active", Json.bool false) = some {} := rfl
    rw [h]
    rfl
  · intro fs
    simp only [decodeUser, List.foldlM_cons]
    have h : setField {} ("emailAddress", Json.str "") = some {} := rfl
    rw [h]
    rfl

theorem C8_amended_zero_values_collapse_witness :
    (("displayName", Json.str "jdoe") : String × Json).1 ≠ "active" ∧
    (("displayName", Json.str "jdoe") : String × Json).1 ≠ "emailAddress" :=
  ⟨C8_amended_zero_values_collapse.1 uZero rfl ("displayName", Json.str "jdoe")
     (List.Mem.tail _ (List.Mem.head _)),
   C8_amended_zero_values_collapse.2.1 uZero rfl ("displayName", Json.str "jdoe")
     (List.Mem.tail _ (List.Mem.head _))⟩

end GoJira
